import Mathlib

/-
Shallow embedding of the roommate-management hook (`useRoommates` in
src/src/hooks/useRoommates.tsx) and of the event form submission handler
(`AddEventForm.onSubmit` in the same source file).

The hosted backend (Supabase) is modelled explicitly:
  * the database state is a pair of tables (`profiles`, `roommates`);
  * a PostgREST `.eq` filter on a text column is exact (case-sensitive)
    string equality, as in Postgres;
  * every network call the hook issues is recorded in an operation trace
    (`DbOp`), so "no write occurs" is a statement about the trace;
  * backend failures are injected through an `Env` of fault flags, one per
    fallible call, mirroring the `error` results the client can return;
  * toast notifications are recorded in emission order in a toast list.

JavaScript string semantics that the source relies on (`||` treating the
empty string as falsy, `?.` on optionals, `split('@')[0]`,
`toLowerCase`) are modelled by the `js*` helpers below.
-/

namespace AirMates

/-- Model of JavaScript `String.prototype.toLowerCase` (ASCII range,
which is all the source compares). -/
def toLowerS (s : String) : String := ⟨s.data.map Char.toLower⟩

/-- Model of JavaScript `s.split('@')[0]`: the prefix before the first
`'@'`, or the whole string when there is none. -/
def localPart (s : String) : String := ⟨(s.data.splitOn '@').headD []⟩

/-- JavaScript falsiness for `string | null | undefined` values: `null`,
`undefined` and `""` are falsy. -/
def jsFalsy : Option String → Bool
  | none => true
  | some s => s == ""

/-- JavaScript `a || b` on optional strings. -/
def jsOr (a b : Option String) : Option String :=
  if jsFalsy a then b else a

/-- JavaScript `a || null` on optional strings. -/
def jsOrNull (a : Option String) : Option String :=
  if jsFalsy a then none else a

/-- JavaScript `msg || 'Unknown error occurred'` from the catch block of
`addRoommate`. -/
def jsErrMsg (m : String) : String :=
  if m == "" then "Unknown error occurred" else m

/-- A character admitted by the character class `[^\s@]` of the email
regex (not whitespace, not `'@'`). -/
def okChar (c : Char) : Bool :=
  !(c == ' ' || c == '\t' || c == '\n' || c == '\r' || c == '\x0b' || c == '\x0c') && !(c == '@')

/-- Model of `/^[^\s@]+@[^\s@]+\.[^\s@]+$/.test(email)`: the string is
`a@b` with `a` a nonempty run of `[^\s@]` characters and `b` a nonempty
run of `[^\s@]` characters containing a `'.'` that is neither its first
nor its last character. Since `[^\s@]` excludes `'@'`, a match forces
exactly one `'@'` in the string, which is what splitting on `'@'` into
exactly two pieces expresses. -/
def emailRegexTest (s : String) : Bool :=
  match s.data.splitOn '@' with
  | [a, b] => !a.isEmpty && a.all okChar && !b.isEmpty && b.all okChar
      && ((b.drop 1).dropLast).contains '.'
  | _ => false

/-- The authenticated user object (`user` from `useAuth`): `id` is always
present, `email` is optional (`user.email?` in the source). -/
structure User where
  id : String
  email : Option String
deriving Repr, DecidableEq

/-- A row of the `profiles` table, with the columns the hook selects
(`id, email, name, full_name, upi_id, mobile_number`). Nullable columns
are `Option`. -/
structure Profile where
  id : String
  email : String
  name : Option String
  full_name : Option String
  upi_id : Option String
  mobile_number : Option String
deriving Repr, DecidableEq

/-- The object literal passed to `.insert` on the `roommates` table:
`{ name, upi_id, email, phone, user_id, balance }`. -/
structure RoommateNew where
  name : String
  upi_id : String
  email : String
  phone : Option String
  user_id : String
  balance : Int
deriving Repr, DecidableEq

/-- A stored row of the `roommates` table: the insert payload plus the
database-generated `id`. -/
structure RoommateRow where
  id : String
  name : String
  upi_id : String
  email : String
  phone : Option String
  user_id : String
  balance : Int
deriving Repr, DecidableEq

/-- Materialise an insert payload as a stored row with a fresh id. -/
def mkRow (rid : String) (p : RoommateNew) : RoommateRow :=
  { id := rid, name := p.name, upi_id := p.upi_id, email := p.email,
    phone := p.phone, user_id := p.user_id, balance := p.balance }

/-- Backend database state: the two tables the hook touches. -/
structure DB where
  profiles : List Profile
  roommates : List RoommateRow
deriving Repr, DecidableEq

/-- One network call issued by the hook, as recorded in the trace. -/
inductive DbOp where
  | selectRoommatesAll
  | selectProfileByEmail (email : String)
  | selectRoommateDup (userId : String) (email : String)
  | selectProfileById (uid : String)
  | insertRoommate (p : RoommateNew)
  | deleteRoommateById (rid : String)
  | deleteRoommatesByUser (userId : String)
deriving Repr, DecidableEq

/-- Is this trace entry an insert into the `roommates` table? -/
def isInsertOp : DbOp → Bool
  | DbOp.insertRoommate _ => true
  | _ => false

/-- Is this trace entry an insert of a roommate row owned by `uid`? -/
def isInsertForUser (uid : String) : DbOp → Bool
  | DbOp.insertRoommate p => p.user_id == uid
  | _ => false

/-- Is this trace entry any write (insert or delete) to `roommates`? -/
def isWriteOp : DbOp → Bool
  | DbOp.insertRoommate _ => true
  | DbOp.deleteRoommateById _ => true
  | DbOp.deleteRoommatesByUser _ => true
  | _ => false

/-- A toast notification as the hook raises it: title, description, and
whether the `destructive` variant was used. -/
structure Toast where
  title : String
  description : String
  destructive : Bool
deriving Repr, DecidableEq

/-- Fault-injection environment: one flag per fallible backend call, a
message for injected errors, and the ids the database would assign to
freshly inserted rows. `profileQueryErrorCode` is the optional error code
of the profile lookup (the source special-cases `'PGRST116'`). -/
structure Env where
  profileQueryErrorCode : Option String
  dupCheckFails : Bool
  currentProfileFails : Bool
  insert1Fails : Bool
  insert2Fails : Bool
  fetchFails : Bool
  deleteFails : Bool
  errMsg : String
  freshId1 : String
  freshId2 : String
deriving Repr, DecidableEq

/-- Result of `fetchRoommates`: the hook's UI list and loading flag after
the call, plus the trace and toasts it produced. -/
structure FetchOut where
  ui : List RoommateRow
  loading : Bool
  trace : List DbOp
  toasts : List Toast
deriving Repr, DecidableEq

/-- Result of a mutating hook operation: backend state, UI list, loading
flag, operation trace and toasts. -/
structure OpOut where
  db : DB
  ui : List RoommateRow
  loading : Bool
  trace : List DbOp
  toasts : List Toast
deriving Repr, DecidableEq

/-- Toast from `addRoommate` when no user is logged in. -/
def mustLoginAddToast : Toast :=
  { title := "Error", description := "You must be logged in to add roommates",
    destructive := true }

/-- Toast from `deleteAllMyRoommates` when no user is logged in. -/
def mustLoginActionToast : Toast :=
  { title := "Error", description := "You must be logged in to perform this action.",
    destructive := true }

/-- Toast for a malformed email address. -/
def invalidEmailToast : Toast :=
  { title := "Invalid Email", description := "Please enter a valid email address",
    destructive := true }

/-- Toast for attempting to add oneself. -/
def selfAddToast : Toast :=
  { title := "Error", description := "You cannot add yourself as a roommate",
    destructive := true }

/-- Toast for a profile-lookup backend error (code other than PGRST116). -/
def dbErrorToast : Toast :=
  { title := "Database Error", description := "Failed to verify user. Please try again.",
    destructive := true }

/-- Toast when no profile exists for the target email. -/
def notFoundToast (email : String) : Toast :=
  { title := "❌ User Not Found",
    description := "No AirMates account found for \"" ++ email ++ "\". The user must create an account and verify their email first.",
    destructive := true }

/-- Toast when the roommate was already added. -/
def alreadyAddedToast : Toast :=
  { title := "Already Added",
    description := "This roommate has already been added to your list.",
    destructive := true }

/-- Toast from the catch block of `addRoommate`. -/
def additionFailedToast (msg : String) : Toast :=
  { title := "Addition Failed", description := "Could not add roommate: " ++ jsErrMsg msg,
    destructive := true }

/-- Success toast of `addRoommate`. -/
def addSuccessToast : Toast :=
  { title := "🎉 Success!",
    description := "Roommate has been added successfully! Both of you can now see each other in your roommate lists.",
    destructive := false }

/-- Toast from the catch block of `fetchRoommates`. -/
def fetchFailedToast (msg : String) : Toast :=
  { title := "Error", description := "Failed to fetch roommates: " ++ msg,
    destructive := true }

/-- Success toast of `deleteRoommate`. -/
def roommateRemovedToast : Toast :=
  { title := "Roommate Removed", description := "Roommate has been removed from your group",
    destructive := false }

/-- Toast from the catch block of `deleteRoommate`. -/
def deleteFailedToast (msg : String) : Toast :=
  { title := "Error", description := "Failed to delete roommate: " ++ msg,
    destructive := true }

/-- Success toast of `deleteAllMyRoommates`. -/
def allRemovedToast : Toast :=
  { title := "All Roommates Removed", description := "All roommates you added have been removed.",
    destructive := false }

/-- Toast from the catch block of `deleteAllMyRoommates`. -/
def deleteAllFailedToast (msg : String) : Toast :=
  { title := "Error", description := "Failed to remove all roommates: " ++ msg,
    destructive := true }

/-- `fetchRoommates`: with no user it only clears the loading flag; with a
user it issues one select over `roommates` and either replaces the UI list
or (on backend error) toasts and leaves the list unchanged. The `finally`
block clears the loading flag on every path. -/
def fetchRoommates (user : Option User) (env : Env) (db : DB)
    (ui0 : List RoommateRow) : FetchOut :=
  match user with
  | none => { ui := ui0, loading := false, trace := [], toasts := [] }
  | some _ =>
    if env.fetchFails then
      { ui := ui0, loading := false, trace := [DbOp.selectRoommatesAll],
        toasts := [fetchFailedToast env.errMsg] }
    else
      { ui := db.roommates, loading := false, trace := [DbOp.selectRoommatesAll],
        toasts := [] }

/-- The self-addition check `email.toLowerCase() === user.email?.toLowerCase()`
(`false` when `user.email` is absent, as `===` against `undefined` is). -/
def selfCheck (u : User) (email : String) : Bool :=
  match u.email with
  | some e => toLowerS email == toLowerS e
  | none => false

/-- The duplicate filter of STEP 2:
`.eq('user_id', user.id).eq('email', email.toLowerCase())` — exact string
equality on both columns. -/
def dupPred (uid loweredEmail : String) (r : RoommateRow) : Bool :=
  r.user_id == uid && r.email == loweredEmail

/-- The current user's profile as seen after
`.eq('id', user.id).single()`: `none` both when the call errors and when
no row exists (the source logs the error and continues with `null`). -/
def currentProfileLookup (env : Env) (db : DB) (u : User) : Option Profile :=
  if env.currentProfileFails then none
  else db.profiles.find? (fun p => p.id == u.id)

/-- Insert payload for the current user's own row (STEP 3a), built from
the target's profile exactly as the object literal in the source:
`name || full_name || email.split('@')[0]`, `upi_id || 'Not set'`,
`mobile_number || null`, `balance: 0`. -/
def targetPayload (u : User) (t : Profile) : RoommateNew :=
  { name := (jsOr (jsOr t.name t.full_name) (some (localPart t.email))).getD "",
    upi_id := (jsOr t.upi_id (some "Not set")).getD "",
    email := t.email,
    phone := jsOrNull t.mobile_number,
    user_id := u.id,
    balance := 0 }

/-- Insert payload for the reciprocal row (STEP 3b):
`currentUserProfile?.name || currentUserProfile?.full_name ||
user.email?.split('@')[0] || 'Unknown User'`, `upi_id || 'Not set'`,
`email: user.email || ''`, `mobile_number || null`, owner the target's
profile id, `balance: 0`. -/
def reciprocalPayload (u : User) (cp : Option Profile) (t : Profile) : RoommateNew :=
  { name := (jsOr (jsOr (jsOr (cp.bind Profile.name) (cp.bind Profile.full_name))
      (u.email.map localPart)) (some "Unknown User")).getD "",
    upi_id := (jsOr (cp.bind Profile.upi_id) (some "Not set")).getD "",
    email := u.email.getD "",
    phone := jsOrNull (cp.bind Profile.mobile_number),
    user_id := t.id,
    balance := 0 }

/-- STEP 3 of `addRoommate`: fetch the current user's profile, insert the
row for the current user (a failure here is thrown and caught, producing
the `Addition Failed` toast), then attempt the reciprocal insert, whose
failure is only logged; finally refetch and raise the success toast. -/
def addRoommateStep3 (u : User) (env : Env) (db : DB) (ui0 : List RoommateRow)
    (loading0 : Bool) (email : String) (t : Profile) : OpOut :=
  let cp := currentProfileLookup env db u
  let p1 := targetPayload u t
  let trBase := [DbOp.selectProfileByEmail (toLowerS email),
                 DbOp.selectRoommateDup u.id (toLowerS email),
                 DbOp.selectProfileById u.id]
  if env.insert1Fails then
    { db := db, ui := ui0, loading := loading0,
      trace := trBase ++ [DbOp.insertRoommate p1],
      toasts := [additionFailedToast env.errMsg] }
  else
    let db1 : DB := { db with roommates := db.roommates ++ [mkRow env.freshId1 p1] }
    let p2 := reciprocalPayload u cp t
    let db2 : DB :=
      if env.insert2Fails then db1
      else { db1 with roommates := db1.roommates ++ [mkRow env.freshId2 p2] }
    let f := fetchRoommates (some u) env db2 ui0
    { db := db2, ui := f.ui, loading := f.loading,
      trace := trBase ++ [DbOp.insertRoommate p1, DbOp.insertRoommate p2] ++ f.trace,
      toasts := f.toasts ++ [addSuccessToast] }

/-- STEP 2 of `addRoommate`: the duplicate check. A backend error here is
thrown and caught (`Addition Failed`); an existing row raises
`Already Added` and stops. -/
def addRoommateStep2 (u : User) (env : Env) (db : DB) (ui0 : List RoommateRow)
    (loading0 : Bool) (email : String) (t : Profile) : OpOut :=
  if env.dupCheckFails then
    { db := db, ui := ui0, loading := loading0,
      trace := [DbOp.selectProfileByEmail (toLowerS email),
                DbOp.selectRoommateDup u.id (toLowerS email)],
      toasts := [additionFailedToast env.errMsg] }
  else
    match db.roommates.find? (dupPred u.id (toLowerS email)) with
    | some _ =>
      { db := db, ui := ui0, loading := loading0,
        trace := [DbOp.selectProfileByEmail (toLowerS email),
                  DbOp.selectRoommateDup u.id (toLowerS email)],
        toasts := [alreadyAddedToast] }
    | none => addRoommateStep3 u env db ui0 loading0 email t

/-- STEP 1 of `addRoommate`: the profile lookup by lower-cased email.
An error code other than `PGRST116` raises `Database Error`; otherwise a
missing profile raises `User Not Found`. -/
def addRoommateStep1 (u : User) (env : Env) (db : DB) (ui0 : List RoommateRow)
    (loading0 : Bool) (email : String) : OpOut :=
  match env.profileQueryErrorCode with
  | some c =>
    if c != "PGRST116" then
      { db := db, ui := ui0, loading := loading0,
        trace := [DbOp.selectProfileByEmail (toLowerS email)],
        toasts := [dbErrorToast] }
    else
      { db := db, ui := ui0, loading := loading0,
        trace := [DbOp.selectProfileByEmail (toLowerS email)],
        toasts := [notFoundToast email] }
  | none =>
    match db.profiles.find? (fun p => p.email == toLowerS email) with
    | none =>
      { db := db, ui := ui0, loading := loading0,
        trace := [DbOp.selectProfileByEmail (toLowerS email)],
        toasts := [notFoundToast email] }
    | some t => addRoommateStep2 u env db ui0 loading0 email t

/-- `addRoommate`: login check, email-format check, self-addition check,
then STEP 1–3. Every failure is converted to a toast inside the function;
the result is a plain record, with no error channel to the caller. -/
def addRoommate (user : Option User) (env : Env) (db : DB) (ui0 : List RoommateRow)
    (loading0 : Bool) (email : String) : OpOut :=
  match user with
  | none =>
    { db := db, ui := ui0, loading := loading0, trace := [],
      toasts := [mustLoginAddToast] }
  | some u =>
    if !emailRegexTest email then
      { db := db, ui := ui0, loading := loading0, trace := [],
        toasts := [invalidEmailToast] }
    else if selfCheck u email then
      { db := db, ui := ui0, loading := loading0, trace := [],
        toasts := [selfAddToast] }
    else
      addRoommateStep1 u env db ui0 loading0 email

/-- `deleteRoommate`: delete by row id, refetch, toast; a backend error is
caught and toasted. There is no login check in the source. -/
def deleteRoommate (user : Option User) (env : Env) (db : DB) (ui0 : List RoommateRow)
    (loading0 : Bool) (rid : String) : OpOut :=
  if env.deleteFails then
    { db := db, ui := ui0, loading := loading0,
      trace := [DbOp.deleteRoommateById rid],
      toasts := [deleteFailedToast env.errMsg] }
  else
    let db1 : DB := { db with roommates := db.roommates.filter (fun r => !(r.id == rid)) }
    let f := fetchRoommates user env db1 ui0
    { db := db1, ui := f.ui, loading := f.loading,
      trace := DbOp.deleteRoommateById rid :: f.trace,
      toasts := f.toasts ++ [roommateRemovedToast] }

/-- `deleteAllMyRoommates`: login check, delete filtered by
`.eq('user_id', user.id)`, refetch, toast; a backend error is caught and
toasted. -/
def deleteAllMyRoommates (user : Option User) (env : Env) (db : DB)
    (ui0 : List RoommateRow) (loading0 : Bool) : OpOut :=
  match user with
  | none =>
    { db := db, ui := ui0, loading := loading0, trace := [],
      toasts := [mustLoginActionToast] }
  | some u =>
    if env.deleteFails then
      { db := db, ui := ui0, loading := loading0,
        trace := [DbOp.deleteRoommatesByUser u.id],
        toasts := [deleteAllFailedToast env.errMsg] }
    else
      let db1 : DB := { db with roommates := db.roommates.filter (fun r => !(r.user_id == u.id)) }
      let f := fetchRoommates (some u) env db1 ui0
      { db := db1, ui := f.ui, loading := f.loading,
        trace := DbOp.deleteRoommatesByUser u.id :: f.trace,
        toasts := f.toasts ++ [allRemovedToast] }

/-- A calendar date as the form's date picker yields it. -/
structure Date where
  year : Nat
  month : Nat
  day : Nat
deriving Repr, DecidableEq

/-- Zero-pad to two digits (`MM`, `dd` of date-fns). -/
def pad2 (n : Nat) : String :=
  if n < 10 then "0" ++ toString n else toString n

/-- Zero-pad to four digits (`yyyy` of date-fns). -/
def pad4 (n : Nat) : String :=
  if n < 10 then "000" ++ toString n
  else if n < 100 then "00" ++ toString n
  else if n < 1000 then "0" ++ toString n
  else toString n

/-- Model of date-fns `format(date, 'yyyy-MM-dd')`. -/
def formatYyyyMmDd (d : Date) : String :=
  pad4 d.year ++ "-" ++ pad2 d.month ++ "-" ++ pad2 d.day

/-- An existing event record (the `eventToEdit` prop). -/
structure Event where
  id : String
  name : String
  event_date : String
  notes : Option String
  event_type : String
deriving Repr, DecidableEq

/-- Schema-validated form values (`EventFormValues`): `notes` is the
optional field of the zod schema. -/
structure EventFormValues where
  name : String
  event_date : Date
  notes : Option String
  event_type : String
deriving Repr, DecidableEq

/-- The object passed to `updateEvent`. -/
structure UpdatePayload where
  id : String
  name : String
  event_date : String
  notes : Option String
  event_type : String
deriving Repr, DecidableEq

/-- The object passed to `addEvent`. -/
structure InsertPayload where
  name : String
  event_date : String
  notes : Option String
  event_type : String
  created_by : String
deriving Repr, DecidableEq

/-- Which backend call `onSubmit` issued. -/
inductive EventAction where
  | noCall
  | update (p : UpdatePayload)
  | insert (p : InsertPayload)
deriving Repr, DecidableEq

/-- Result of `AddEventForm.onSubmit`: the backend call made, the sonner
toast messages raised, and whether the dialog was closed. -/
structure SubmitOut where
  action : EventAction
  toasts : List String
  closed : Bool
deriving Repr, DecidableEq

/-- `AddEventForm.onSubmit`: returns silently with no user; otherwise
updates when `eventToEdit` is present and inserts when it is absent, in
both cases normalising the date through `format(_, 'yyyy-MM-dd')` and
`notes` through `|| null`; a thrown save error is caught and toasted. -/
def onSubmit (user : Option User) (eventToEdit : Option Event) (saveFails : Bool)
    (v : EventFormValues) : SubmitOut :=
  match user with
  | none => { action := EventAction.noCall, toasts := [], closed := false }
  | some u =>
    match eventToEdit with
    | some e =>
      let p : UpdatePayload :=
        { id := e.id, name := v.name, event_date := formatYyyyMmDd v.event_date,
          notes := jsOrNull v.notes, event_type := v.event_type }
      if saveFails then
        { action := EventAction.update p,
          toasts := ["Failed to save event. Please try again."], closed := false }
      else
        { action := EventAction.update p,
          toasts := ["Event updated successfully."], closed := true }
    | none =>
      let p : InsertPayload :=
        { name := v.name, event_date := formatYyyyMmDd v.event_date,
          notes := jsOrNull v.notes, event_type := v.event_type, created_by := u.id }
      if saveFails then
        { action := EventAction.insert p,
          toasts := ["Failed to save event. Please try again."], closed := false }
      else
        { action := EventAction.insert p,
          toasts := ["Event added successfully."], closed := true }

/-! Concrete scenario used by the witnesses and counterexamples: user
`u1` (Alice) with profiles for Alice and Bob in the database. -/

/-- Concrete user for witnesses. -/
def uA : User := { id := "u1", email := some "alice@x.com" }

/-- Concrete profile of the current user. -/
def profA : Profile :=
  { id := "u1", email := "alice@x.com", name := some "Alice", full_name := none,
    upi_id := some "alice@upi", mobile_number := none }

/-- Concrete profile of the target user. -/
def profB : Profile :=
  { id := "u2", email := "bob@x.com", name := some "Bob", full_name := none,
    upi_id := none, mobile_number := some "123" }

/-- Database with both profiles and an empty roommates table. -/
def dbAB : DB := { profiles := [profA, profB], roommates := [] }

/-- Environment in which every backend call succeeds. -/
def envOk : Env :=
  { profileQueryErrorCode := none, dupCheckFails := false, currentProfileFails := false,
    insert1Fails := false, insert2Fails := false, fetchFails := false,
    deleteFails := false, errMsg := "boom", freshId1 := "r1", freshId2 := "r2" }

/-- A roommate row for the pair (u1, Bob) whose stored email has
upper-case letters, as the reciprocal insert can produce (it stores
`user.email` verbatim). -/
def rowMixed : RoommateRow :=
  { id := "r0", name := "Bob", upi_id := "Not set", email := "Bob@X.com",
    phone := none, user_id := "u1", balance := 0 }

/-- Database in which u1 already has Bob as a roommate, stored with a
mixed-case email. -/
def dbMixed : DB := { profiles := [profA, profB], roommates := [rowMixed] }

/-- A roommate row for the pair (u1, Bob) with the email stored in lower
case, as the initiator-side insert produces. -/
def rowLower : RoommateRow :=
  { id := "r0", name := "Bob", upi_id := "Not set", email := "bob@x.com",
    phone := none, user_id := "u1", balance := 0 }

/-- Database in which u1 already has Bob as a roommate, stored lower-case. -/
def dbLower : DB := { profiles := [profA, profB], roommates := [rowLower] }

/-- A roommate row owned by the other user u2. -/
def rowOther : RoommateRow :=
  { id := "r9", name := "Alice", upi_id := "alice@upi", email := "alice@x.com",
    phone := none, user_id := "u2", balance := 5 }

/-- Database whose roommates table has one row owned by u1 and one owned
by u2. -/
def dbTwoOwners : DB := { profiles := [profA, profB], roommates := [rowLower, rowOther] }

/-! Theorems settling the specification claims. -/

/-- C3: for every input string that does not match the email format,
`addRoommate` returns before issuing any database read or write — the
operation trace is empty — and, when a user is logged in, the only
user-visible effect is the invalid-email toast. -/
theorem addRoommate_malformed_no_network
    (user : Option User) (env : Env) (db : DB) (ui0 : List RoommateRow)
    (loading0 : Bool) (email : String)
    (h : emailRegexTest email = false) :
    (addRoommate user env db ui0 loading0 email).trace = []
    ∧ (addRoommate user env db ui0 loading0 email).db = db
    ∧ ∀ u : User, user = some u →
        (addRoommate user env db ui0 loading0 email).toasts = [invalidEmailToast] := by
  cases user with
  | none => simp [addRoommate]
  | some u => simp [addRoommate, h]

/-- Witness for C3 at the spec's own example input `"not-an-email"`. -/
theorem addRoommate_malformed_no_network_witness :
    emailRegexTest "not-an-email" = false
    ∧ (addRoommate (some uA) envOk dbAB [] true "not-an-email").trace = []
    ∧ (addRoommate (some uA) envOk dbAB [] true "not-an-email").toasts = [invalidEmailToast] := by
  refine ⟨by decide, ?_, ?_⟩
  · exact (addRoommate_malformed_no_network (some uA) envOk dbAB [] true "not-an-email"
      (by decide)).1
  · exact (addRoommate_malformed_no_network (some uA) envOk dbAB [] true "not-an-email"
      (by decide)).2.2 uA rfl

/-- C4: for every email equal, case-insensitively, to the logged-in
user's own email, `addRoommate` issues no database operation at all; and
whenever such an email passes the format check, the rejection the user
sees is exactly the self-addition toast. -/
theorem addRoommate_self_rejected
    (env : Env) (db : DB) (ui0 : List RoommateRow) (loading0 : Bool)
    (u : User) (e : String) (email : String)
    (hu : u.email = some e)
    (heq : toLowerS email = toLowerS e) :
    (addRoommate (some u) env db ui0 loading0 email).trace = []
    ∧ (addRoommate (some u) env db ui0 loading0 email).db = db
    ∧ (emailRegexTest email = true →
        (addRoommate (some u) env db ui0 loading0 email).toasts = [selfAddToast]) := by
  have hsc : selfCheck u email = true := by simp [selfCheck, hu, heq]
  cases hre : emailRegexTest email with
  | false => simp [addRoommate, hre]
  | true => simp [addRoommate, hre, hsc]

/-- Witness for C4: Alice tries to add her own address in different
capitalisation. -/
theorem addRoommate_self_rejected_witness :
    uA.email = some "alice@x.com"
    ∧ toLowerS "ALICE@x.com" = toLowerS "alice@x.com"
    ∧ (addRoommate (some uA) envOk dbAB [] true "ALICE@x.com").trace = []
    ∧ (addRoommate (some uA) envOk dbAB [] true "ALICE@x.com").toasts = [selfAddToast] := by
  refine ⟨rfl, by decide, ?_, ?_⟩
  · exact (addRoommate_self_rejected envOk dbAB [] true uA "alice@x.com" "ALICE@x.com"
      rfl (by decide)).1
  · exact (addRoommate_self_rejected envOk dbAB [] true uA "alice@x.com" "ALICE@x.com"
      rfl (by decide)).2.2 (by decide)

/-- C10: with no logged-in user, `addRoommate` and `deleteAllMyRoommates`
issue no database operation, leave the backend untouched and raise their
destructive must-be-logged-in toasts, and `fetchRoommates` issues no
query, raises no toast, and only clears the loading flag, leaving the UI
list unchanged. -/
theorem loggedOut_operations_inert
    (env : Env) (db : DB) (ui0 : List RoommateRow) (loading0 : Bool) (email : String) :
    ((addRoommate none env db ui0 loading0 email).trace = []
      ∧ (addRoommate none env db ui0 loading0 email).db = db
      ∧ (addRoommate none env db ui0 loading0 email).toasts = [mustLoginAddToast]
      ∧ mustLoginAddToast.destructive = true)
    ∧ ((deleteAllMyRoommates none env db ui0 loading0).trace = []
      ∧ (deleteAllMyRoommates none env db ui0 loading0).db = db
      ∧ (deleteAllMyRoommates none env db ui0 loading0).toasts = [mustLoginActionToast]
      ∧ mustLoginActionToast.destructive = true)
    ∧ fetchRoommates none env db ui0
        = { ui := ui0, loading := false, trace := [], toasts := [] } :=
  ⟨⟨rfl, rfl, rfl, rfl⟩, ⟨rfl, rfl, rfl, rfl⟩, rfl⟩

/-- C8: on event-form submission with a logged-in user, the backend call
is an update exactly when `eventToEdit` is present and an insert exactly
when it is absent, and in both cases the written `event_date` is the
submitted date normalised through `format(_, 'yyyy-MM-dd')`. -/
theorem onSubmit_update_iff_edit
    (user : Option User) (u : User) (eventToEdit : Option Event) (saveFails : Bool)
    (v : EventFormValues)
    (hu : user = some u) :
    (∀ e : Event, eventToEdit = some e →
      (onSubmit user eventToEdit saveFails v).action = EventAction.update
        { id := e.id, name := v.name, event_date := formatYyyyMmDd v.event_date,
          notes := jsOrNull v.notes, event_type := v.event_type })
    ∧ (eventToEdit = none →
      (onSubmit user eventToEdit saveFails v).action = EventAction.insert
        { name := v.name, event_date := formatYyyyMmDd v.event_date,
          notes := jsOrNull v.notes, event_type := v.event_type, created_by := u.id }) := by
  subst hu
  constructor
  · intro e he
    subst he
    cases saveFails <;> simp [onSubmit]
  · intro he
    subst he
    cases saveFails <;> simp [onSubmit]

/-- Witness for C8: adding (not editing) an event on 2026-01-05 issues an
insert whose date string is "2026-01-05". -/
theorem onSubmit_update_iff_edit_witness :
    (onSubmit (some uA) (none : Option Event) false
        { name := "Rent", event_date := { year := 2026, month := 1, day := 5 },
          notes := some "", event_type := "General" }).action
      = EventAction.insert
        { name := "Rent", event_date := formatYyyyMmDd { year := 2026, month := 1, day := 5 },
          notes := jsOrNull (some ""), event_type := "General", created_by := uA.id }
    ∧ formatYyyyMmDd { year := 2026, month := 1, day := 5 } = "2026-01-05" := by
  refine ⟨?_, by decide⟩
  exact (onSubmit_update_iff_edit (some uA) uA none false
    { name := "Rent", event_date := { year := 2026, month := 1, day := 5 },
      notes := some "", event_type := "General" } rfl).2 rfl

/-- C5: when no profile row matches the lower-cased target email (and the
lookup itself succeeds), `addRoommate` leaves the database untouched, its
trace is exactly the one profile select — in particular it contains no
write to the roommates relation — and the user-not-found toast fires. -/
theorem addRoommate_profile_not_found
    (u : User) (env : Env) (db : DB) (ui0 : List RoommateRow) (loading0 : Bool)
    (email : String)
    (hre : emailRegexTest email = true)
    (hself : selfCheck u email = false)
    (hperr : env.profileQueryErrorCode = none)
    (hfind : db.profiles.find? (fun p => p.email == toLowerS email) = none) :
    (addRoommate (some u) env db ui0 loading0 email).db = db
    ∧ (addRoommate (some u) env db ui0 loading0 email).trace
        = [DbOp.selectProfileByEmail (toLowerS email)]
    ∧ (addRoommate (some u) env db ui0 loading0 email).toasts = [notFoundToast email] := by
  simp [addRoommate, hre, hself, addRoommateStep1, hperr, hfind]

/-- Witness for C5: no profile exists for "carol@x.com". -/
theorem addRoommate_profile_not_found_witness :
    dbAB.profiles.find? (fun p => p.email == toLowerS "carol@x.com") = none
    ∧ (addRoommate (some uA) envOk dbAB [] true "carol@x.com").db = dbAB
    ∧ (addRoommate (some uA) envOk dbAB [] true "carol@x.com").trace
        = [DbOp.selectProfileByEmail (toLowerS "carol@x.com")]
    ∧ (addRoommate (some uA) envOk dbAB [] true "carol@x.com").toasts
        = [notFoundToast "carol@x.com"] := by
  refine ⟨by decide, ?_⟩
  exact addRoommate_profile_not_found uA envOk dbAB [] true "carol@x.com"
    (by decide) (by decide) rfl (by decide)

/-- C2, counterexample: the duplicate check compares the stored email to
the lower-cased input by exact string equality, so a pre-existing row for
the same pair whose stored email differs only in case (here
"Bob@X.com", as the reciprocal insert can store) is not detected: on
input "bob@x.com" the call issues inserts and never raises the
already-added toast, refuting the claim that a case-insensitive duplicate
blocks the write. -/
theorem addRoommate_dup_check_not_case_insensitive :
    (rowMixed ∈ dbMixed.roommates ∧ rowMixed.user_id = uA.id
      ∧ toLowerS rowMixed.email = toLowerS "bob@x.com")
    ∧ (addRoommate (some uA) envOk dbMixed [] true "bob@x.com").trace.any isInsertOp = true
    ∧ alreadyAddedToast ∉ (addRoommate (some uA) envOk dbMixed [] true "bob@x.com").toasts := by
  exact ⟨by decide, by decide, by decide⟩

/-- C2, amended: when a roommate row already exists for the current user
whose stored email exactly equals the lower-cased input email, no new
write occurs — the database is unchanged and the trace holds only the two
selects — and the duplicate is reported to the user. -/
theorem addRoommate_duplicate_exact_match
    (u : User) (env : Env) (db : DB) (ui0 : List RoommateRow) (loading0 : Bool)
    (email : String) (t : Profile) (r : RoommateRow)
    (hre : emailRegexTest email = true)
    (hself : selfCheck u email = false)
    (hperr : env.profileQueryErrorCode = none)
    (ht : db.profiles.find? (fun p => p.email == toLowerS email) = some t)
    (hdup : env.dupCheckFails = false)
    (hr : db.roommates.find? (dupPred u.id (toLowerS email)) = some r) :
    (addRoommate (some u) env db ui0 loading0 email).db = db
    ∧ (addRoommate (some u) env db ui0 loading0 email).trace
        = [DbOp.selectProfileByEmail (toLowerS email),
           DbOp.selectRoommateDup u.id (toLowerS email)]
    ∧ (addRoommate (some u) env db ui0 loading0 email).toasts = [alreadyAddedToast] := by
  simp [addRoommate, hre, hself, addRoommateStep1, hperr, ht, addRoommateStep2, hdup, hr]

/-- Witness for the amended C2: the row is stored lower-case and the
input only differs in case, so the lowered input matches it exactly. -/
theorem addRoommate_duplicate_exact_match_witness :
    dbLower.roommates.find? (dupPred uA.id (toLowerS "Bob@X.com")) = some rowLower
    ∧ (addRoommate (some uA) envOk dbLower [] true "Bob@X.com").db = dbLower
    ∧ (addRoommate (some uA) envOk dbLower [] true "Bob@X.com").trace
        = [DbOp.selectProfileByEmail (toLowerS "Bob@X.com"),
           DbOp.selectRoommateDup uA.id (toLowerS "Bob@X.com")]
    ∧ (addRoommate (some uA) envOk dbLower [] true "Bob@X.com").toasts
        = [alreadyAddedToast] := by
  refine ⟨by decide, ?_⟩
  exact addRoommate_duplicate_exact_match uA envOk dbLower [] true "Bob@X.com" profB rowLower
    (by decide) (by decide) rfl (by decide) rfl (by decide)

/-- C6: with a logged-in user and a successful backend call,
`deleteAllMyRoommates` leaves the roommates table holding exactly the
rows not owned by the calling user — every row of the caller is deleted,
every row of any other owner survives — and then refetches the list. -/
theorem deleteAllMyRoommates_only_own_rows
    (u : User) (env : Env) (db : DB) (ui0 : List RoommateRow) (loading0 : Bool)
    (hok : env.deleteFails = false) :
    (deleteAllMyRoommates (some u) env db ui0 loading0).db.roommates
        = db.roommates.filter (fun r => !(r.user_id == u.id))
    ∧ (∀ r : RoommateRow,
        r ∈ (deleteAllMyRoommates (some u) env db ui0 loading0).db.roommates
          ↔ r ∈ db.roommates ∧ r.user_id ≠ u.id)
    ∧ DbOp.selectRoommatesAll ∈ (deleteAllMyRoommates (some u) env db ui0 loading0).trace := by
  refine ⟨?_, ?_, ?_⟩
  · simp [deleteAllMyRoommates, hok]
  · intro r
    simp [deleteAllMyRoommates, hok, List.mem_filter]
  · cases hf : env.fetchFails <;>
      simp [deleteAllMyRoommates, hok, fetchRoommates, hf]

/-- Witness for C6: u1 owns one row and u2 owns another; only u2's row
survives and the list is refetched. -/
theorem deleteAllMyRoommates_only_own_rows_witness :
    envOk.deleteFails = false
    ∧ (deleteAllMyRoommates (some uA) envOk dbTwoOwners [] true).db.roommates
        = dbTwoOwners.roommates.filter (fun r => !(r.user_id == uA.id))
    ∧ (∀ r : RoommateRow,
        r ∈ (deleteAllMyRoommates (some uA) envOk dbTwoOwners [] true).db.roommates
          ↔ r ∈ dbTwoOwners.roommates ∧ r.user_id ≠ uA.id)
    ∧ DbOp.selectRoommatesAll ∈ (deleteAllMyRoommates (some uA) envOk dbTwoOwners [] true).trace := by
  exact ⟨rfl, deleteAllMyRoommates_only_own_rows uA envOk dbTwoOwners [] true rfl⟩

/-- Every insert issued by STEP 3 carries balance 0. -/
theorem balance_zero_step3
    (u : User) (env : Env) (db : DB) (ui0 : List RoommateRow) (loading0 : Bool)
    (email : String) (t : Profile) (p : RoommateNew)
    (hmem : DbOp.insertRoommate p ∈ (addRoommateStep3 u env db ui0 loading0 email t).trace) :
    p.balance = 0 := by
  unfold addRoommateStep3 at hmem
  by_cases h1 : env.insert1Fails
  · simp [h1] at hmem
    subst hmem
    rfl
  · by_cases h2 : env.fetchFails <;>
      simp [h1, h2, fetchRoommates] at hmem <;>
      rcases hmem with h | h <;> subst h <;> rfl

/-- Every insert issued by STEP 2 carries balance 0. -/
theorem balance_zero_step2
    (u : User) (env : Env) (db : DB) (ui0 : List RoommateRow) (loading0 : Bool)
    (email : String) (t : Profile) (p : RoommateNew)
    (hmem : DbOp.insertRoommate p ∈ (addRoommateStep2 u env db ui0 loading0 email t).trace) :
    p.balance = 0 := by
  unfold addRoommateStep2 at hmem
  by_cases h1 : env.dupCheckFails
  · simp [h1] at hmem
  · simp only [h1] at hmem
    rw [if_neg (by simp)] at hmem
    cases hf : db.roommates.find? (dupPred u.id (toLowerS email)) with
    | some r =>
      rw [hf] at hmem
      simp at hmem
    | none =>
      rw [hf] at hmem
      exact balance_zero_step3 u env db ui0 loading0 email t p hmem

/-- Every insert issued by STEP 1 carries balance 0. -/
theorem balance_zero_step1
    (u : User) (env : Env) (db : DB) (ui0 : List RoommateRow) (loading0 : Bool)
    (email : String) (p : RoommateNew)
    (hmem : DbOp.insertRoommate p ∈ (addRoommateStep1 u env db ui0 loading0 email).trace) :
    p.balance = 0 := by
  unfold addRoommateStep1 at hmem
  cases hc : env.profileQueryErrorCode with
  | some c =>
    rw [hc] at hmem
    by_cases h : c != "PGRST116" <;> simp [h] at hmem
  | none =>
    rw [hc] at hmem
    cases hf : db.profiles.find? (fun q => q.email == toLowerS email) with
    | none =>
      rw [hf] at hmem
      simp at hmem
    | some t =>
      rw [hf] at hmem
      exact balance_zero_step2 u env db ui0 loading0 email t p hmem

/-- C9: every roommate row that `addRoommate` attempts to insert — the
initiator's row as well as the reciprocal row — is created with a balance
of exactly 0; no other balance value is ever written. -/
theorem addRoommate_inserts_balance_zero
    (user : Option User) (env : Env) (db : DB) (ui0 : List RoommateRow)
    (loading0 : Bool) (email : String) (p : RoommateNew)
    (hmem : DbOp.insertRoommate p ∈ (addRoommate user env db ui0 loading0 email).trace) :
    p.balance = 0 := by
  cases user with
  | none => simp [addRoommate] at hmem
  | some u =>
    unfold addRoommate at hmem
    by_cases hre : emailRegexTest email
    · by_cases hs : selfCheck u email
      · simp [hre, hs] at hmem
      · simp only [hre, Bool.not_true, hs] at hmem
        rw [if_neg (by simp)] at hmem
        rw [if_neg (by simp [hs])] at hmem
        exact balance_zero_step1 u env db ui0 loading0 email p hmem
    · simp [hre] at hmem

/-- Witness for C9: in the all-success run both the initiator insert and
the reciprocal insert are in the trace with balance 0. -/
theorem addRoommate_inserts_balance_zero_witness :
    DbOp.insertRoommate (targetPayload uA profB)
        ∈ (addRoommate (some uA) envOk dbAB [] true "bob@x.com").trace
    ∧ (targetPayload uA profB).balance = 0 :=
  ⟨by decide,
   addRoommate_inserts_balance_zero (some uA) envOk dbAB [] true "bob@x.com"
     (targetPayload uA profB) (by decide)⟩

/-- STEP 3 always ends with at least one toast. -/
theorem toasts_ne_step3
    (u : User) (env : Env) (db : DB) (ui0 : List RoommateRow) (loading0 : Bool)
    (email : String) (t : Profile) :
    (addRoommateStep3 u env db ui0 loading0 email t).toasts ≠ [] := by
  unfold addRoommateStep3
  by_cases h1 : env.insert1Fails <;> simp [h1]

/-- STEP 2 always ends with at least one toast. -/
theorem toasts_ne_step2
    (u : User) (env : Env) (db : DB) (ui0 : List RoommateRow) (loading0 : Bool)
    (email : String) (t : Profile) :
    (addRoommateStep2 u env db ui0 loading0 email t).toasts ≠ [] := by
  unfold addRoommateStep2
  by_cases h1 : env.dupCheckFails
  · simp [h1]
  · rw [if_neg h1]
    cases hf : db.roommates.find? (dupPred u.id (toLowerS email)) with
    | some r => simp
    | none => exact toasts_ne_step3 u env db ui0 loading0 email t

/-- STEP 1 always ends with at least one toast. -/
theorem toasts_ne_step1
    (u : User) (env : Env) (db : DB) (ui0 : List RoommateRow) (loading0 : Bool)
    (email : String) :
    (addRoommateStep1 u env db ui0 loading0 email).toasts ≠ [] := by
  unfold addRoommateStep1
  cases hc : env.profileQueryErrorCode with
  | some c =>
    by_cases h : c != "PGRST116" <;> simp [h]
  | none =>
    cases hf : db.profiles.find? (fun q => q.email == toLowerS email) with
    | none => simp
    | some t => exact toasts_ne_step2 u env db ui0 loading0 email t

/-- `addRoommate` always ends with at least one toast. -/
theorem toasts_ne_addRoommate
    (user : Option User) (env : Env) (db : DB) (ui0 : List RoommateRow)
    (loading0 : Bool) (email : String) :
    (addRoommate user env db ui0 loading0 email).toasts ≠ [] := by
  cases user with
  | none => simp [addRoommate]
  | some u =>
    by_cases hre : emailRegexTest email
    · by_cases hs : selfCheck u email
      · simp [addRoommate, hre, hs]
      · have he : addRoommate (some u) env db ui0 loading0 email
            = addRoommateStep1 u env db ui0 loading0 email := by
          simp [addRoommate, hre, hs]
        rw [he]
        exact toasts_ne_step1 u env db ui0 loading0 email
    · simp [addRoommate, hre]

/-- `deleteRoommate` always ends with at least one toast. -/
theorem toasts_ne_deleteRoommate
    (user : Option User) (env : Env) (db : DB) (ui0 : List RoommateRow)
    (loading0 : Bool) (rid : String) :
    (deleteRoommate user env db ui0 loading0 rid).toasts ≠ [] := by
  by_cases h : env.deleteFails <;> simp [deleteRoommate, h]

/-- `deleteAllMyRoommates` always ends with at least one toast. -/
theorem toasts_ne_deleteAll
    (user : Option User) (env : Env) (db : DB) (ui0 : List RoommateRow)
    (loading0 : Bool) :
    (deleteAllMyRoommates user env db ui0 loading0).toasts ≠ [] := by
  cases user with
  | none => simp [deleteAllMyRoommates]
  | some u => by_cases h : env.deleteFails <;> simp [deleteAllMyRoommates, h]

/-- C7: on every input and under every combination of backend failures,
each mutating operation of the hook ends by raising at least one toast:
every failure mode is handled inside the operation and surfaced as a
user-visible notification. The operations' results are plain records with
no error channel, so no exception or typed error reaches the caller. -/
theorem hook_operations_always_notify
    (user : Option User) (env : Env) (db : DB) (ui0 : List RoommateRow)
    (loading0 : Bool) (email : String) (rid : String) :
    0 < (addRoommate user env db ui0 loading0 email).toasts.length
    ∧ 0 < (deleteRoommate user env db ui0 loading0 rid).toasts.length
    ∧ 0 < (deleteAllMyRoommates user env db ui0 loading0).toasts.length :=
  ⟨List.length_pos.mpr (toasts_ne_addRoommate user env db ui0 loading0 email),
   List.length_pos.mpr (toasts_ne_deleteRoommate user env db ui0 loading0 rid),
   List.length_pos.mpr (toasts_ne_deleteAll user env db ui0 loading0)⟩

/-- C1: in a successful `addRoommate` run whose reciprocal insert fails,
exactly one roommate row is inserted for the initiating user, the
reciprocal insert for the target user is attempted, the initiator's row
is not rolled back (it is the only change to the table), the list is
refetched, and the only toast raised is the success toast. -/
theorem addRoommate_success_one_sided
    (u : User) (env : Env) (db : DB) (ui0 : List RoommateRow) (loading0 : Bool)
    (email : String) (t : Profile)
    (hre : emailRegexTest email = true)
    (hself : selfCheck u email = false)
    (hperr : env.profileQueryErrorCode = none)
    (ht : db.profiles.find? (fun p => p.email == toLowerS email) = some t)
    (hdup : env.dupCheckFails = false)
    (hnodup : db.roommates.find? (dupPred u.id (toLowerS email)) = none)
    (hi1 : env.insert1Fails = false)
    (hi2 : env.insert2Fails = true)
    (hfetch : env.fetchFails = false)
    (htid : t.id ≠ u.id) :
    (addRoommate (some u) env db ui0 loading0 email).trace.filter (isInsertForUser u.id)
        = [DbOp.insertRoommate (targetPayload u t)]
    ∧ DbOp.insertRoommate (reciprocalPayload u (currentProfileLookup env db u) t)
        ∈ (addRoommate (some u) env db ui0 loading0 email).trace
    ∧ (addRoommate (some u) env db ui0 loading0 email).db.roommates
        = db.roommates ++ [mkRow env.freshId1 (targetPayload u t)]
    ∧ DbOp.selectRoommatesAll ∈ (addRoommate (some u) env db ui0 loading0 email).trace
    ∧ (addRoommate (some u) env db ui0 loading0 email).toasts = [addSuccessToast] := by
  have hstep : addRoommate (some u) env db ui0 loading0 email
      = addRoommateStep3 u env db ui0 loading0 email t := by
    simp [addRoommate, hre, hself, addRoommateStep1, hperr, ht, addRoommateStep2, hdup, hnodup]
  have hb : (t.id == u.id) = false := beq_eq_false_iff_ne.mpr htid
  have hs3 : addRoommateStep3 u env db ui0 loading0 email t
      = { db := { profiles := db.profiles,
                  roommates := db.roommates ++ [mkRow env.freshId1 (targetPayload u t)] },
          ui := db.roommates ++ [mkRow env.freshId1 (targetPayload u t)],
          loading := false,
          trace := [DbOp.selectProfileByEmail (toLowerS email),
                    DbOp.selectRoommateDup u.id (toLowerS email),
                    DbOp.selectProfileById u.id,
                    DbOp.insertRoommate (targetPayload u t),
                    DbOp.insertRoommate (reciprocalPayload u (currentProfileLookup env db u) t),
                    DbOp.selectRoommatesAll],
          toasts := [addSuccessToast] } := by
    simp [addRoommateStep3, hi1, hi2, fetchRoommates, hfetch]
  rw [hstep, hs3]
  refine ⟨?_, ?_, rfl, ?_, rfl⟩
  · simp [List.filter, isInsertForUser, targetPayload, reciprocalPayload, hb]
  · simp
  · simp

/-- Environment in which only the reciprocal insert fails. -/
def envRecipFail : Env :=
  { envOk with insert2Fails := true }

/-- Witness for C1: Alice adds Bob while the reciprocal insert fails. -/
theorem addRoommate_success_one_sided_witness :
    envRecipFail.insert2Fails = true
    ∧ ((addRoommate (some uA) envRecipFail dbAB [] true "bob@x.com").trace.filter
          (isInsertForUser uA.id)
        = [DbOp.insertRoommate (targetPayload uA profB)]
      ∧ DbOp.insertRoommate
          (reciprocalPayload uA (currentProfileLookup envRecipFail dbAB uA) profB)
          ∈ (addRoommate (some uA) envRecipFail dbAB [] true "bob@x.com").trace
      ∧ (addRoommate (some uA) envRecipFail dbAB [] true "bob@x.com").db.roommates
          = dbAB.roommates ++ [mkRow envRecipFail.freshId1 (targetPayload uA profB)]
      ∧ DbOp.selectRoommatesAll
          ∈ (addRoommate (some uA) envRecipFail dbAB [] true "bob@x.com").trace
      ∧ (addRoommate (some uA) envRecipFail dbAB [] true "bob@x.com").toasts
          = [addSuccessToast]) :=
  ⟨rfl,
   addRoommate_success_one_sided uA envRecipFail dbAB [] true "bob@x.com" profB
     (by decide) (by decide) rfl (by decide) rfl (by decide) rfl rfl rfl (by decide)⟩

end AirMates
